import Mathlib

/-!
Verification of the supervisor orchestration core of the Events/Articles
chatbot: the routing classifier (`_analyze_query`,
`_analyze_query_with_context`), the workflow transition functions
(`_after_sql_agent`, `_after_rag_agent`), the result combiner
(`_generate_combined_response`), the final-response extraction in
`process_query`, and the SQLite-backed session store (`SessionMemory`).

Each definition is a shallow embedding of the corresponding Python
function from `src/agents/supervisor.py`, `src/agents/memory.py`,
`src/sql_agent/agent.py` and `src/rag_agent/agent.py`.
-/

namespace Chatbot

/-- Embedding of Python `str.lower()` (agrees on the ASCII strings the
keyword heuristics use). -/
def pyLower (s : String) : String := String.mk (s.toList.map Char.toLower)

/-- Substring test on character lists: `containsSub n h` holds when `n`
occurs contiguously inside `h`. -/
def containsSub : List Char → List Char → Bool
  | needle, [] => needle.isEmpty
  | needle, c :: t => needle.isPrefixOf (c :: t) || containsSub needle t

/-- Embedding of the Python membership test `needle in hay` on strings. -/
def pyIn (needle hay : String) : Bool := containsSub needle.toList hay.toList

/-- Keyword list of `SQLAgent.is_sql_query` (src/sql_agent/agent.py). -/
def sql_keywords : List String :=
  ["event", "events", "when", "where", "date", "time", "location",
   "article", "articles", "author", "company", "booth", "contact",
   "count", "how many", "list", "show", "find", "search",
   "recent", "upcoming", "past", "latest", "oldest"]

/-- Keyword list of `RAGAgent.is_rag_query` (src/rag_agent/agent.py). -/
def rag_keywords : List String :=
  ["about", "explain", "tell me", "what is", "how does", "why",
   "content", "article", "information", "details", "description",
   "similar", "related", "like", "compare", "difference",
   "topic", "subject", "theme", "concept", "idea"]

/-- Embedding of `SQLAgent.is_sql_query`: any SQL keyword occurs in the
lowercased query. -/
def is_sql_query (query : String) : Bool :=
  sql_keywords.any (fun kw => pyIn kw (pyLower query))

/-- Embedding of `RAGAgent.is_rag_query`: any RAG keyword occurs in the
lowercased query. -/
def is_rag_query (query : String) : Bool :=
  rag_keywords.any (fun kw => pyIn kw (pyLower query))

/-- The routing decision strings `"sql" | "rag" | "both" | "end"` of
`AgentSupervisor`. -/
inductive Route where
  | sql
  | rag
  | both
  | end_
deriving DecidableEq, BEq, Repr

/-- Embedding of `AgentSupervisor._analyze_query` (supervisor.py lines
357 to 387), the body inside its try block: the pure boolean combination
of the two backend predicates. -/
def analyze_query (query : String) : Route :=
  if is_sql_query query && is_rag_query query then Route.both
  else if is_sql_query query then Route.sql
  else if is_rag_query query then Route.rag
  else Route.rag

/-- Follow-up cue words of the first context-refinement branch. -/
def followup_sql_words : List String := ["more", "also", "what about", "and"]

/-- Follow-up cue words of the second context-refinement branch. -/
def followup_rag_words : List String := ["explain", "tell me more", "details"]

/-- Continuity keywords of the third context-refinement branch. -/
def continuity_keywords : List String :=
  ["continue", "more", "also", "additionally", "furthermore", "what else"]

/-- Embedding of `AgentSupervisor._analyze_query_with_context`
(supervisor.py lines 389 to 428): phase-1 decision plus the three
context-refinement branches, each returning `both` when it fires. -/
def analyze_query_with_context (query context : String) : Route :=
  if pyIn ("sql") (pyLower context)
      && followup_sql_words.any (fun w => pyIn w (pyLower query))
      && (analyze_query query == Route.rag) then Route.both
  else if pyIn ("rag") (pyLower context)
      && followup_rag_words.any (fun w => pyIn w (pyLower query))
      && (analyze_query query == Route.sql) then Route.both
  else if continuity_keywords.any (fun w => pyIn w (pyLower query))
      && (pyIn ("sql") (pyLower context) && pyIn ("rag") (pyLower context))
      then Route.both
  else analyze_query query

/-- A backend predicate that may raise: `Except.error e` models the
Python call throwing exception text `e`, `Except.ok b` a normal boolean
return. Used to embed the try/except structure of the classifier. -/
abbrev FalliblePred := String → Except String Bool

/-- Embedding of `_analyze_query` with its try/except: the two backend
predicate calls may throw, in which case the except handler (supervisor.py
lines 385 to 387) returns the `rag` default. -/
def analyze_queryE (sp rp : FalliblePred) (query : String) : Route :=
  match sp query with
  | Except.error _ => Route.rag
  | Except.ok sql_relevant =>
    match rp query with
    | Except.error _ => Route.rag
    | Except.ok rag_relevant =>
      if sql_relevant && rag_relevant then Route.both
      else if sql_relevant then Route.sql
      else if rag_relevant then Route.rag
      else Route.rag

/-- Embedding of `session_context.lower()` on a possibly-malformed (None)
context: Python raises AttributeError on `None.lower()`. -/
def pyLowerE : Option String → Except String String
  | some s => Except.ok (pyLower s)
  | none => Except.error ("AttributeError: NoneType object has no attribute lower")

/-- Embedding of `_analyze_query_with_context` with its try/except: the
inner `_analyze_query` call catches its own exceptions (so it never
throws here); if the refinement body throws (modelled by a malformed
context), the except handler (supervisor.py lines 426 to 428) falls back
to `_analyze_query(query)`. -/
def analyze_query_with_contextE (sp rp : FalliblePred) (query : String)
    (octx : Option String) : Route :=
  match pyLowerE octx with
  | Except.error _ => analyze_queryE sp rp query
  | Except.ok context_lower =>
    if pyIn ("sql") context_lower
        && followup_sql_words.any (fun w => pyIn w (pyLower query))
        && (analyze_queryE sp rp query == Route.rag) then Route.both
    else if pyIn ("rag") context_lower
        && followup_rag_words.any (fun w => pyIn w (pyLower query))
        && (analyze_queryE sp rp query == Route.sql) then Route.both
    else if continuity_keywords.any (fun w => pyIn w (pyLower query))
        && (pyIn ("sql") context_lower && pyIn ("rag") context_lower)
        then Route.both
    else analyze_queryE sp rp query

/-- A predicate that always throws; models a backend heuristic raising. -/
def throw_pred : FalliblePred := fun _ => Except.error ("boom")

/-- Lifting of a total predicate to a fallible one that never throws. -/
def okPred (f : String → Bool) : FalliblePred := fun q => Except.ok (f q)

/-- The result dictionary a backend `query()` call (or the node error
handler) stores into `sql_results` / `rag_results`: every such dict in
the source carries a `success` key and usually `response` / `error`
keys; absent keys are `none` (Python `dict.get` then yields None). -/
structure AgentResult where
  success : Option Bool
  response : Option String
  error : Option String
deriving DecidableEq, Repr

/-- Python truthiness of the value of `.get("success")`. -/
def pyTruthyOptBool : Option Bool → Bool
  | some b => b
  | none => false

/-- Embedding of `state.get("sql_results", {}).get("success")`. -/
def dict_get_success : Option AgentResult → Option Bool
  | some r => r.success
  | none => none

/-- Embedding of `AgentSupervisor._after_sql_agent` (supervisor.py lines
434 to 443). Returns the edge labels `"rag"` or `"end"`. -/
def after_sql_agent (route_to : Option Route) (sql_results : Option AgentResult) :
    String :=
  if route_to = some Route.both then ("rag")
  else if pyTruthyOptBool (dict_get_success sql_results) = true then ("end")
  else ("rag")

/-- Embedding of `AgentSupervisor._after_rag_agent` (supervisor.py lines
445 to 452). `state.get("sql_results")` is truthy exactly when the field
is non-null, since every result dict the program stores is non-empty
(it always carries a `success` key). Returns `"combiner"` or `"end"`. -/
def after_rag_agent (route_to : Option Route) (sql_results : Option AgentResult) :
    String :=
  if route_to = some Route.both ∧ sql_results.isSome = true then ("combiner")
  else ("end")

/-- The three shapes the language-model `invoke` result can have in
`_generate_combined_response`: an object with a `content` attribute, a
dict with a `content` key, or anything else (rendered via `str`). -/
inductive PyResp where
  | withContent (content : String)
  | dictContent (content : String)
  | other (text : String)
deriving DecidableEq, Repr

/-- Embedding of the response-content extraction chain (supervisor.py
lines 489 to 494). -/
def extract_response_content : PyResp → String
  | PyResp.withContent c => c
  | PyResp.dictContent c => c
  | PyResp.other s => s

/-- The deterministic combiner fallback string (supervisor.py line 498),
with the exception text appended where the f-string embeds `str(e)`. -/
def combine_error_fallback (e : String) : String :=
  ("I found information from both database and articles, but encountered an error combining them: ") ++ e

/-- Embedding of the user prompt built in `_generate_combined_response`
(supervisor.py lines 470 to 480), after `.strip()`. -/
def combine_user_prompt (query : String) (sql_results rag_results : Option AgentResult) :
    String :=
  ("User Question: ") ++ query ++ ("\n\nSQL Results:\n")
  ++ (match sql_results with
      | some r => r.response.getD ("No SQL results")
      | none => ("No SQL results"))
  ++ ("\n\nArticle Search Results:\n")
  ++ (match rag_results with
      | some r => r.response.getD ("No article results")
      | none => ("No article results"))
  ++ ("\n\nPlease provide a comprehensive response that combines these information sources.")

/-- Embedding of `AgentSupervisor._generate_combined_response`
(supervisor.py lines 454 to 498). The external language-generation call
is the fallible parameter `invoke`; `Except.error e` models
`model.invoke` raising with text `e`, and the except handler returns the
deterministic fallback. -/
def generate_combined_response (invoke : String → Except String PyResp)
    (query : String) (sql_results rag_results : Option AgentResult) : String :=
  match invoke (combine_user_prompt query sql_results rag_results) with
  | Except.ok r => extract_response_content r
  | Except.error e => combine_error_fallback e

/-- A message dict as held in the run state `messages` list; `.get` on an
absent key yields None, modelled by `none`. -/
structure Msg where
  role : Option String
  content : Option String
deriving DecidableEq, Repr

/-- Python truthiness of an optional string (None and the empty string
are falsy). -/
def py_truthy_str : Option String → Bool
  | none => false
  | some s => !(s == "")

/-- Embedding of the Python expression `v or d` for an optional string
`v` and default `d`. -/
def py_or_str (v : Option String) (d : String) : String :=
  if py_truthy_str v then v.getD d else d

/-- The fixed fallback of `process_query` (supervisor.py line 547). -/
def no_response_fallback : String :=
  ("I couldn") ++ String.singleton (Char.ofNat 39) ++ ("t generate a response to your query.")

/-- Embedding of the final-response extraction in
`AgentSupervisor.process_query` (supervisor.py lines 536 to 547):
`final_state.get("final_response")`, the reverse scan for the most
recent assistant message, and the final `or` with the fixed fallback. -/
def extract_final_response (final_response : Option String) (messages : List Msg) :
    String :=
  py_or_str
    (if py_truthy_str final_response then final_response
     else
       match messages.reverse.find? (fun m => m.role == some ("assistant")) with
       | some m => m.content
       | none => final_response)
    no_response_fallback

/-- A row of the `session_messages` table, in insertion (`created_at`)
order. The wall-clock timestamp is an explicit argument of the append
operation (externalised nondeterminism of `datetime.now()`). -/
structure Row where
  session_id : String
  role : String
  content : String
  agent : Option String
  timestamp : String
  metadata : Option String
deriving DecidableEq, Repr

/-- A message dictionary as returned by
`SessionMemory.get_session_messages` (the parsed-metadata key is not
modelled; no claim concerns it). -/
structure StoredMessage where
  role : String
  content : String
  agent : Option String
  timestamp : String
  session_id : String
deriving DecidableEq, Repr

/-- One SQLite connection: whether the `session_messages` table exists
in the connected database, and its rows in `created_at` order. -/
structure SQLiteConn where
  has_table : Bool
  rows : List Row
deriving DecidableEq, Repr

/-- `sqlite3.connect(":memory:")` always yields a fresh empty database,
in which no table exists. -/
def fresh_memory_db : SQLiteConn := ⟨false, []⟩

/-- The state of a `SessionMemory` instance: its mode (`db_path` equal
to `":memory:"` or a file path), and the durable contents of the file
database (meaningful only in file mode). -/
structure SessionMemory where
  in_memory : Bool
  db : List Row
  db_has_table : Bool
deriving DecidableEq, Repr

/-- Embedding of `sqlite3.connect(self._get_db_path())`: in-memory mode
opens a fresh empty database each time; file mode opens the durable
one. -/
def SessionMemory.connect (s : SessionMemory) : SQLiteConn :=
  if s.in_memory then fresh_memory_db else ⟨s.db_has_table, s.db⟩

/-- Closing the connection: changes made on a file-mode connection are
durable; an in-memory database is discarded with its connection. -/
def SessionMemory.persist (s : SessionMemory) (c : SQLiteConn) : SessionMemory :=
  if s.in_memory then s else ⟨s.in_memory, c.rows, c.has_table⟩

/-- Embedding of `SessionMemory.__init__` + `_init_database` on an
initially empty backing store: file mode durably creates the table;
in-memory mode creates it on a throwaway connection. -/
def mk_session_memory (db_path : String) : SessionMemory :=
  if db_path == (":memory:") then ⟨true, [], false⟩ else ⟨false, [], true⟩

/-- A file-backed store after `_init_database`, with the given rows. -/
def file_store (rows : List Row) : SessionMemory := ⟨false, rows, true⟩

/-- Embedding of `SessionMemory.add_message` (memory.py lines 75 to
101): INSERT appends one row; if the table does not exist the INSERT
raises, the except handler logs, and nothing changes (silent failure). -/
def add_message (s : SessionMemory) (session_id role content : String)
    (agent : Option String) (metadata : Option String) (timestamp : String) :
    SessionMemory :=
  let conn := s.connect
  if conn.has_table then
    s.persist ⟨conn.has_table, conn.rows ++ [⟨session_id, role, content, agent, timestamp, metadata⟩]⟩
  else s

/-- Projection of a table row to the message dict built in
`get_session_messages` (memory.py lines 127 to 133). -/
def row_to_message (session_id : String) (r : Row) : StoredMessage :=
  ⟨r.role, r.content, r.agent, r.timestamp, session_id⟩

/-- Embedding of `SessionMemory.get_session_messages` (memory.py lines
103 to 148): `SELECT ... WHERE session_id = ? ORDER BY created_at ASC
LIMIT ?` keeps the rows of the session in insertion order and takes the
first `limit` of them; any error (such as a missing table) is caught and
yields the empty list. -/
def get_session_messages (s : SessionMemory) (session_id : String) (limit : Nat) :
    List StoredMessage :=
  let conn := s.connect
  if conn.has_table then
    ((conn.rows.filter (fun r => r.session_id == session_id)).take limit).map
      (row_to_message session_id)
  else []

/-- Embedding of `SessionMemory.clear_session` (memory.py lines 150 to
174): DELETE the rows of the session and return True; on error (such as
a missing table) return False. -/
def clear_session (s : SessionMemory) (session_id : String) :
    Bool × SessionMemory :=
  let conn := s.connect
  if conn.has_table then
    (true, s.persist ⟨conn.has_table, conn.rows.filter (fun r => !(r.session_id == session_id))⟩)
  else (false, s)

/-- Successive `add_message` calls, one per row payload. -/
def run_appends (s : SessionMemory) (items : List Row) : SessionMemory :=
  items.foldl
    (fun st r => add_message st r.session_id r.role r.content r.agent r.metadata r.timestamp)
    s

/-! ## Helper lemmas -/

/-- With never-throwing predicates, the fallible classifier embedding
coincides with the plain one. -/
theorem analyze_queryE_ok (q : String) :
    analyze_queryE (okPred is_sql_query) (okPred is_rag_query) q = analyze_query q := rfl

/-- With never-throwing predicates and a well-formed context, the
fallible context classifier embedding coincides with the plain one. -/
theorem analyze_query_with_contextE_ok (q ctx : String) :
    analyze_query_with_contextE (okPred is_sql_query) (okPred is_rag_query) q (some ctx)
      = analyze_query_with_context q ctx := rfl

/-- A filter whose predicate is false on every element is empty. -/
theorem filter_eq_nil_of (p : Row → Bool) (l : List Row)
    (h : ∀ r ∈ l, p r = false) : l.filter p = [] := by
  induction l with
  | nil => rfl
  | cons a t ih =>
    have ha := h a (by simp)
    rw [List.filter_cons, ha]
    simp only [Bool.false_eq_true, if_false]
    exact ih (fun r hr => h r (by simp [hr]))

/-- A filter whose predicate is true on every element is the identity. -/
theorem filter_eq_self_of (p : Row → Bool) (l : List Row)
    (h : ∀ r ∈ l, p r = true) : l.filter p = l := by
  induction l with
  | nil => rfl
  | cons a t ih =>
    have ha := h a (by simp)
    rw [List.filter_cons, ha]
    simp only [if_true]
    rw [ih (fun r hr => h r (by simp [hr]))]

/-- Filtering for a session after deleting that session yields nothing. -/
theorem filter_not_self (sid : String) (l : List Row) :
    (l.filter (fun r => !(r.session_id == sid))).filter
      (fun r => r.session_id == sid) = [] := by
  apply filter_eq_nil_of
  intro r hr
  have h2 := (List.mem_filter.mp hr).2
  simpa using h2

/-- `add_message` on a file-backed store appends the row durably. -/
theorem add_message_file (rows : List Row) (r : Row) :
    add_message (file_store rows) r.session_id r.role r.content r.agent r.metadata
      r.timestamp = file_store (rows ++ [r]) := by
  cases r
  rfl

/-- Running a sequence of appends on a file-backed store appends all the
rows in order. -/
theorem run_appends_file (items : List Row) (rows : List Row) :
    run_appends (file_store rows) items = file_store (rows ++ items) := by
  induction items generalizing rows with
  | nil => simp [run_appends]
  | cons r t ih =>
    show run_appends
      (add_message (file_store rows) r.session_id r.role r.content r.agent r.metadata
        r.timestamp) t = _
    rw [add_message_file, ih]
    simp

/-- Reading a file-backed store filters the session rows in insertion
order and takes the first `limit`. -/
theorem get_file (rows : List Row) (sid : String) (limit : Nat) :
    get_session_messages (file_store rows) sid limit
      = ((rows.filter (fun r => r.session_id == sid)).take limit).map
          (row_to_message sid) := rfl

/-! ## Claim theorems -/

/-- C4: the phase-1 (context-free) routing decision is the pure boolean
combination of the two backend can-handle predicates: both true gives
`both`, only the structured predicate gives `sql`, only the semantic
predicate gives `rag`, and neither defaults to `rag` (equivalently, the
decision is `rag` exactly when the structured predicate is false). -/
theorem analyze_query_boolean_combination (q : String) :
    (analyze_query q = Route.both ↔ is_sql_query q = true ∧ is_rag_query q = true)
    ∧ (analyze_query q = Route.sql ↔ is_sql_query q = true ∧ is_rag_query q = false)
    ∧ (analyze_query q = Route.rag ↔ is_sql_query q = false) := by
  unfold analyze_query
  cases hs : is_sql_query q <;> cases hr : is_rag_query q <;> simp

/-- Witness for C4: concrete queries exercising all four predicate
combinations. -/
theorem analyze_query_boolean_combination_witness :
    analyze_query ("how many events") = Route.sql
    ∧ analyze_query ("why") = Route.rag
    ∧ analyze_query ("list about") = Route.both
    ∧ analyze_query ("zzz") = Route.rag := by
  refine ⟨?_, ?_, ?_, ?_⟩
  · exact (analyze_query_boolean_combination ("how many events")).2.1.mpr (by decide)
  · exact (analyze_query_boolean_combination ("why")).2.2.mpr (by decide)
  · exact (analyze_query_boolean_combination ("list about")).1.mpr (by decide)
  · exact (analyze_query_boolean_combination ("zzz")).2.2.mpr (by decide)

/-- C5: context refinement only ever broadens the phase-1 decision
toward `both`: its result is the phase-1 decision or `both`, and a
phase-1 `both` is never narrowed. -/
theorem context_refinement_broadens (q ctx : String) :
    (analyze_query_with_context q ctx = analyze_query q
      ∨ analyze_query_with_context q ctx = Route.both)
    ∧ (analyze_query q = Route.both → analyze_query_with_context q ctx = Route.both) := by
  constructor
  · unfold analyze_query_with_context
    split_ifs <;> simp
  · intro h
    unfold analyze_query_with_context
    split_ifs <;> simp [h]

/-- Witness for C5: a query routed `both` by phase 1 stays `both` under
refinement with empty context. -/
theorem context_refinement_broadens_witness :
    analyze_query ("list about") = Route.both
    ∧ analyze_query_with_context ("list about") ("") = Route.both := by
  have h := context_refinement_broadens ("list about") ("")
  exact ⟨by decide, h.2 (by decide)⟩

/-- C6 counterexample: when both backend heuristics throw, the
context-free analysis recovers to `rag`, but the context refinement can
then broaden the decision to `both` -- so classification after a
heuristic failure is not always the `rag` decision, refuting the claim
as stated. -/
theorem classification_throw_counterexample :
    throw_pred ("more") = Except.error ("boom")
    ∧ analyze_query_with_contextE throw_pred throw_pred ("more") (some ("sql"))
        = Route.both
    ∧ Route.both ≠ Route.rag := by
  refine ⟨rfl, by decide, by decide⟩

/-- C6 (amended): classification never raises: if the backend heuristics
throw, the context-free analysis fails closed to `rag`; if the
context-refinement phase fails (malformed context), the classifier falls
back to the context-free decision; and the overall result is always the
context-free decision or `both`. -/
theorem classification_fail_closed (sp rp : FalliblePred) (q : String)
    (octx : Option String) :
    ((∃ e, sp q = Except.error e) ∨ (∃ e, rp q = Except.error e) →
        analyze_queryE sp rp q = Route.rag)
    ∧ (octx = none →
        analyze_query_with_contextE sp rp q octx = analyze_queryE sp rp q)
    ∧ (analyze_query_with_contextE sp rp q octx = analyze_queryE sp rp q
        ∨ analyze_query_with_contextE sp rp q octx = Route.both) := by
  refine ⟨?_, ?_, ?_⟩
  · rintro (⟨e, he⟩ | ⟨e, he⟩)
    · simp [analyze_queryE, he]
    · cases hsp : sp q with
      | error e2 => simp [analyze_queryE, hsp]
      | ok b => simp [analyze_queryE, hsp, he]
  · rintro rfl
    rfl
  · cases octx with
    | none => exact Or.inl rfl
    | some ctx =>
      unfold analyze_query_with_contextE
      simp only [pyLowerE]
      split_ifs <;> simp

/-- Witness for C6 (amended): with throwing heuristics, the context-free
analysis yields `rag`, and with a malformed (None) context the context
classifier falls back to the context-free decision. -/
theorem classification_fail_closed_witness :
    analyze_queryE throw_pred throw_pred ("hello") = Route.rag
    ∧ analyze_query_with_contextE throw_pred throw_pred ("hello") none
        = analyze_queryE throw_pred throw_pred ("hello") := by
  have h := classification_fail_closed throw_pred throw_pred ("hello") none
  exact ⟨h.1 (Or.inl ⟨("boom"), rfl⟩), h.2.1 rfl⟩

/-- C2: after the RAG step the next node is the combiner if and only if
the routing decision is `both` and the structured result field is
present (non-null), regardless of its success flag; in every other case
the next node is END. -/
theorem after_rag_agent_combiner_iff (route : Option Route) (sqlr : Option AgentResult) :
    (after_rag_agent route sqlr = ("combiner")
      ↔ route = some Route.both ∧ sqlr.isSome = true)
    ∧ (after_rag_agent route sqlr = ("combiner")
        ∨ after_rag_agent route sqlr = ("end"))
    ∧ (∀ r r2 : AgentResult,
        after_rag_agent route (some r) = after_rag_agent route (some r2)) := by
  refine ⟨?_, ?_, ?_⟩
  · unfold after_rag_agent
    split_ifs with hc
    · exact iff_of_true rfl hc
    · exact iff_of_false (by decide) hc
  · unfold after_rag_agent
    split_ifs <;> simp
  · intro r r2
    simp [after_rag_agent]

/-- Witness for C2: a present but failed structured result still routes
to the combiner under decision `both`. -/
theorem after_rag_agent_combiner_iff_witness :
    after_rag_agent (some Route.both) (some ⟨some false, none, some ("boom")⟩)
      = ("combiner") := by
  exact (after_rag_agent_combiner_iff (some Route.both)
    (some ⟨some false, none, some ("boom")⟩)).1.mpr ⟨rfl, rfl⟩

/-- C3: when the routing decision is not `both`, the step after the SQL
node is END exactly on `success = true`; on `success = false` or an
absent success flag it is RAG, never END. -/
theorem after_sql_agent_fallback (route : Option Route) (sqlr : Option AgentResult)
    (h : route ≠ some Route.both) :
    (dict_get_success sqlr = some true → after_sql_agent route sqlr = ("end"))
    ∧ (dict_get_success sqlr ≠ some true →
        after_sql_agent route sqlr = ("rag")
        ∧ after_sql_agent route sqlr ≠ ("end")) := by
  constructor
  · intro hs
    simp [after_sql_agent, h, hs, pyTruthyOptBool]
  · intro hs
    have hfalse : pyTruthyOptBool (dict_get_success sqlr) = false := by
      cases hds : dict_get_success sqlr with
      | none => rfl
      | some b =>
        cases b with
        | false => rfl
        | true => exact absurd hds hs
    constructor
    · simp [after_sql_agent, h, hfalse]
    · simp [after_sql_agent, h, hfalse]

/-- Witness for C3: under decision `sql`, a successful structured call
ends the run and a failed one falls back to RAG. -/
theorem after_sql_agent_fallback_witness :
    after_sql_agent (some Route.sql) (some ⟨some true, some ("ok"), none⟩) = ("end")
    ∧ after_sql_agent (some Route.sql) (some ⟨some false, none, some ("err")⟩) = ("rag") := by
  have h1 := after_sql_agent_fallback (some Route.sql)
    (some ⟨some true, some ("ok"), none⟩) (by decide)
  have h2 := after_sql_agent_fallback (some Route.sql)
    (some ⟨some false, none, some ("err")⟩) (by decide)
  exact ⟨h1.1 rfl, (h2.2 (by decide)).1⟩

/-- C1 counterexample: two appends to a fresh session and a read with
limit 1 return the OLDEST record, not the most recent one -- the read is
a prefix of history, refuting the sliding-window claim. -/
theorem read_not_most_recent_counterexample :
    get_session_messages
        (run_appends (file_store [])
          [⟨("s"), ("user"), ("m1"), none, ("t1"), none⟩,
           ⟨("s"), ("user"), ("m2"), none, ("t2"), none⟩]) ("s") 1
      = [⟨("user"), ("m1"), none, ("t1"), ("s")⟩]
    ∧ get_session_messages
        (run_appends (file_store [])
          [⟨("s"), ("user"), ("m1"), none, ("t1"), none⟩,
           ⟨("s"), ("user"), ("m2"), none, ("t2"), none⟩]) ("s") 1
      ≠ [⟨("user"), ("m2"), none, ("t2"), ("s")⟩] := by
  constructor
  · rfl
  · decide

/-- C1 (amended): for every session and limit, reading after `n` appends
returns exactly `min(n, limit)` messages in append order, and when
`n > limit` they are the OLDEST `limit` records (the prefix
`items.take limit` of history), not the most recent ones. -/
theorem read_returns_oldest_rows (init_rows : List Row) (sid : String)
    (items : List Row) (limit : Nat)
    (hinit : ∀ r ∈ init_rows, r.session_id ≠ sid)
    (hitems : ∀ r ∈ items, r.session_id = sid) :
    get_session_messages (run_appends (file_store init_rows) items) sid limit
        = (items.take limit).map (row_to_message sid)
    ∧ (get_session_messages (run_appends (file_store init_rows) items) sid limit).length
        = min items.length limit := by
  have hfilter : (init_rows ++ items).filter (fun r => r.session_id == sid) = items := by
    rw [List.filter_append]
    rw [filter_eq_nil_of _ _ (fun r hr => by simp [hinit r hr])]
    rw [filter_eq_self_of _ _ (fun r hr => by simp [hitems r hr])]
    simp
  constructor
  · rw [run_appends_file, get_file, hfilter]
  · rw [run_appends_file, get_file, hfilter]
    simp [Nat.min_comm]

/-- Witness for C1 (amended): one foreign row, two appends, limit 1. -/
theorem read_returns_oldest_rows_witness :
    get_session_messages
        (run_appends (file_store [⟨("other"), ("user"), ("m0"), none, ("t0"), none⟩])
          [⟨("s"), ("user"), ("m1"), none, ("t1"), none⟩,
           ⟨("s"), ("user"), ("m2"), none, ("t2"), none⟩]) ("s") 1
      = [⟨("user"), ("m1"), none, ("t1"), ("s")⟩]
    ∧ (get_session_messages
        (run_appends (file_store [⟨("other"), ("user"), ("m0"), none, ("t0"), none⟩])
          [⟨("s"), ("user"), ("m1"), none, ("t1"), none⟩,
           ⟨("s"), ("user"), ("m2"), none, ("t2"), none⟩]) ("s") 1).length
      = min 2 1 := by
  have h := read_returns_oldest_rows
    [⟨("other"), ("user"), ("m0"), none, ("t0"), none⟩] ("s")
    [⟨("s"), ("user"), ("m1"), none, ("t1"), none⟩,
     ⟨("s"), ("user"), ("m2"), none, ("t2"), none⟩] 1
    (by decide) (by decide)
  exact ⟨h.1, h.2⟩

/-- C9: on a file-backed store, `clear_session` reports success for
every prior store state and every session (including empty or
nonexistent ones), and a read performed after the clear returns the
empty sequence. -/
theorem clear_then_read_empty (rows : List Row) (sid : String) (limit : Nat) :
    (clear_session (file_store rows) sid).1 = true
    ∧ get_session_messages ((clear_session (file_store rows) sid).2) sid limit = [] := by
  constructor
  · rfl
  · show ((((rows.filter (fun r => !(r.session_id == sid))).filter
        (fun r => r.session_id == sid)).take limit).map (row_to_message sid)) = []
    rw [filter_not_self]
    simp

/-- C10: with the `":memory:"` path, every operation connects to a fresh
empty database without the messages table, so every `add_message`
silently leaves the store unchanged and every read returns the empty
list: no message appended in in-memory mode is ever readable. -/
theorem in_memory_mode_blackhole (items : List Row) (sid : String) (limit : Nat) :
    (mk_session_memory (":memory:")).connect = fresh_memory_db
    ∧ fresh_memory_db.has_table = false
    ∧ run_appends (mk_session_memory (":memory:")) items = mk_session_memory (":memory:")
    ∧ get_session_messages (run_appends (mk_session_memory (":memory:")) items) sid limit
        = [] := by
  have hrun : run_appends (mk_session_memory (":memory:")) items
      = mk_session_memory (":memory:") := by
    induction items with
    | nil => rfl
    | cons r t ih =>
      show run_appends
        (add_message (mk_session_memory (":memory:")) r.session_id r.role r.content
          r.agent r.metadata r.timestamp) t = _
      have hstep : add_message (mk_session_memory (":memory:")) r.session_id r.role
          r.content r.agent r.metadata r.timestamp = mk_session_memory (":memory:") := rfl
      rw [hstep]
      exact ih
  refine ⟨rfl, rfl, hrun, ?_⟩
  rw [hrun]
  rfl

/-- C7 counterexample: a run state whose `final_response` field is set
(non-null) but empty is NOT returned; the code treats it as absent and
falls through to the most recent assistant message, refuting the claim
as stated. -/
theorem extract_final_response_counterexample :
    (some ("") : Option String) ≠ none
    ∧ extract_final_response (some ("")) [⟨some ("assistant"), some ("hello")⟩]
        = ("hello")
    ∧ ("hello" : String) ≠ ("") := by
  refine ⟨by simp, rfl, by decide⟩

/-- C7 (amended): if `final_response` is set to a non-empty string it is
returned; otherwise the content of the most recent assistant message is
returned when that content is non-empty, and the fixed fallback string
is returned when the most recent assistant content is empty or absent or
when no assistant message exists. -/
theorem extract_final_response_spec (fr : Option String) (msgs : List Msg) :
    (∀ s, fr = some s → s ≠ ("") → extract_final_response fr msgs = s)
    ∧ (py_truthy_str fr = false →
        (∀ m, msgs.reverse.find? (fun m2 => m2.role == some ("assistant")) = some m →
          extract_final_response fr msgs = py_or_str m.content no_response_fallback)
        ∧ (msgs.reverse.find? (fun m2 => m2.role == some ("assistant")) = none →
          extract_final_response fr msgs = no_response_fallback)) := by
  refine ⟨?_, fun hfr => ⟨?_, ?_⟩⟩
  · rintro s rfl hs
    have ht : py_truthy_str (some s) = true := by
      simp [py_truthy_str, hs]
    unfold extract_final_response
    rw [if_pos ht]
    simp [py_or_str, ht, Option.getD]
  · intro m hm
    unfold extract_final_response
    rw [if_neg (by simp [hfr]), hm]
  · intro hm
    unfold extract_final_response
    rw [if_neg (by simp [hfr]), hm]
    cases fr with
    | none => rfl
    | some s =>
      simp [py_or_str, hfr]

/-- Witness for C7 (amended): a non-empty `final_response` is returned
as is; with no `final_response` and no messages the fixed fallback is
returned. -/
theorem extract_final_response_spec_witness :
    extract_final_response (some ("ok")) [] = ("ok")
    ∧ extract_final_response none [] = no_response_fallback := by
  refine ⟨(extract_final_response_spec (some ("ok")) []).1 ("ok") rfl (by decide), ?_⟩
  exact ((extract_final_response_spec none []).2 rfl).2 rfl

/-- C8: the combiner never propagates an exception: when the
language-generation call fails the caller receives the deterministic
fallback string with the error text embedded, and when it succeeds the
caller receives the extracted content. -/
theorem generate_combined_response_never_raises
    (invoke : String → Except String PyResp) (query : String)
    (sqlr ragr : Option AgentResult) :
    (∀ e, invoke (combine_user_prompt query sqlr ragr) = Except.error e →
        generate_combined_response invoke query sqlr ragr = combine_error_fallback e)
    ∧ (∀ r, invoke (combine_user_prompt query sqlr ragr) = Except.ok r →
        generate_combined_response invoke query sqlr ragr = extract_response_content r) := by
  constructor
  · intro e he
    unfold generate_combined_response
    rw [he]
  · intro r hr
    unfold generate_combined_response
    rw [hr]

/-- Witness for C8: a throwing generation call yields the deterministic
fallback with the error text embedded. -/
theorem generate_combined_response_never_raises_witness :
    generate_combined_response (fun _ => Except.error ("model down")) ("q") none none
      = combine_error_fallback ("model down") := by
  exact (generate_combined_response_never_raises
    (fun _ => Except.error ("model down")) ("q") none none).1 ("model down") rfl

end Chatbot
